import Mathlib

/-!
# Barber shop landing page: interaction script

A shallow embedding of `src/script.js` and the properties of its six
sections: network detection, header scroll effect, mobile menu, scroll
reveal, smooth anchor scrolling and the map loader.

JavaScript values are embedded as follows.  A DOM lookup that may yield
`null` is an `Option`.  A string attribute that may be missing is an
`Option String`; it is truthy exactly when it is a non-empty string.
Element offsets (`offsetTop`, `offsetHeight`) are integers, the scroll
offset `window.scrollY` is a rational number.  A `classList` is the list of
its tokens.
-/

namespace Barber

/-! ## JavaScript truthiness of the values the script tests -/

/-- Truthiness of a possibly missing string: `null`, `undefined` and `""`
are falsy, every other string is truthy. -/
def truthyStr : Option String → Bool
  | none => false
  | some s => s != ""

/-- Truthiness of a possibly missing boolean property. -/
def truthyBool : Option Bool → Bool
  | none => false
  | some b => b

/-- The expression `x || ""` on a possibly missing string. -/
def orEmpty : Option String → String
  | none => ""
  | some s => s

/-! ## 0. Lite mode and network detection (lines 16-31) -/

/-- A `NetworkInformation` object; each property may be missing. -/
structure Connection where
  saveData : Option Bool
  type : Option String
  effectiveType : Option String
  deriving DecidableEq

/-- The three places where `navigator` may expose the connection object. -/
structure Navigator where
  connection : Option Connection
  mozConnection : Option Connection
  webkitConnection : Option Connection
  deriving DecidableEq

/-- Line 17: `navigator.connection || navigator.mozConnection ||
navigator.webkitConnection` (an object is truthy). -/
def connection (nav : Navigator) : Option Connection :=
  match nav.connection with
  | some c => some c
  | none =>
    match nav.mozConnection with
    | some c => some c
    | none => nav.webkitConnection

/-- Line 21: `!!(connection && connection.saveData)`. -/
def isLiteMode (nav : Navigator) : Bool :=
  match connection nav with
  | none => false
  | some c => truthyBool c.saveData

/-- Lines 24-31: cellular connection or a slow effective type. -/
def isPoorNetwork (nav : Navigator) : Bool :=
  match connection nav with
  | none => false
  | some c =>
    let type := orEmpty c.type
    let effective := orEmpty c.effectiveType
    if type == "cellular" || ["slow-2g", "2g", "3g"].contains effective then true
    else false

/-- The network profile the rest of the script reads. -/
structure NetworkProfile where
  liteMode : Bool
  poorNetwork : Bool
  deriving DecidableEq

/-- Reference definition of the classifier, following the specification:
the connection metadata is an optional record; `liteMode` holds iff the
metadata is present and the data-saving preference is enabled, `poorNetwork`
iff the metadata is present and the type is "cellular" or the effective
type is one of "slow-2g", "2g", "3g"; without metadata both are false. -/
def classifySpec : Option Connection → NetworkProfile
  | none => { liteMode := false, poorNetwork := false }
  | some c =>
    { liteMode := decide (c.saveData = some true)
      poorNetwork := decide (c.type = some "cellular" ∨ c.effectiveType = some "slow-2g"
        ∨ c.effectiveType = some "2g" ∨ c.effectiveType = some "3g") }

/-- A navigator exposing only `webkitConnection`: wifi, effective type
"3g", data saver off. -/
def navWifi3g : Navigator :=
  { connection := none
    mozConnection := none
    webkitConnection := some ⟨some false, some "wifi", some "3g"⟩ }

/-! ## The document and the page state -/

/-- Elements of the document are named by numbers. -/
abbrev Element := Nat

/-- The exception `document.querySelector` raises on a string that is not
a valid selector (a `SyntaxError` DOMException). -/
inductive DOMException where
  | invalidSelector
  deriving DecidableEq

/-- The part of the markup the script looks up once, at load (lines 37,
52-56, 80, 83), and the selector engine of the document. -/
structure Document where
  header : Option Element
  mobileMenu : Option Element
  openBtn : Option Element
  closeBtn : Option Element
  menuOverlay : Option Element
  menuLinks : List Element
  revealElements : List Element
  hasIntersectionObserver : Bool
  select : String → Except DOMException (Option Element)

/-- The `behavior` member of the options passed to `window.scrollTo`. -/
inductive ScrollBehavior where
  | auto
  | smooth
  deriving DecidableEq

/-- The options object of one `window.scrollTo` call. -/
structure ScrollToOptions where
  top : Int
  behavior : ScrollBehavior
  deriving DecidableEq

/-- The mutable state the handlers read and write.  `revealObserver` is
`none` while no `IntersectionObserver` has been constructed, and otherwise
holds the targets under observation.  `scrollToCalls` records the
`window.scrollTo` requests issued so far. -/
structure Page where
  scrollY : ℚ
  classList : Element → List String
  bodyOverflow : String
  offsetTop : Element → Int
  offsetHeight : Element → Int
  revealObserver : Option (List Element)
  scrollToCalls : List ScrollToOptions

/-- Method `DOMTokenList.add`: the token is appended unless already there. -/
def tokensAdd (tokens : List String) (t : String) : List String :=
  if t ∈ tokens then tokens else tokens ++ [t]

/-- Method `DOMTokenList.remove`: every occurrence of the token is dropped. -/
def tokensRemove (tokens : List String) (t : String) : List String :=
  tokens.filter (fun x => x != t)

/-- Statement `el.classList.add(t)`. -/
def Page.classListAdd (s : Page) (el : Element) (t : String) : Page :=
  { s with classList := fun x => if x = el then tokensAdd (s.classList el) t else s.classList x }

/-- Statement `el.classList.remove(t)`. -/
def Page.classListRemove (s : Page) (el : Element) (t : String) : Page :=
  { s with classList := fun x => if x = el then tokensRemove (s.classList el) t else s.classList x }

/-- Expression `el.classList.contains(t)`. -/
def Page.hasClass (s : Page) (el : Element) (t : String) : Bool :=
  (s.classList el).contains t

/-! ## 1. Header scroll effect (lines 37-46) -/

/-- Lines 39-43. -/
def handleScroll (d : Document) (s : Page) : Page :=
  match d.header with
  | none => s
  | some header =>
    if s.scrollY > 60 then s.classListAdd header "scrolled"
    else s.classListRemove header "scrolled"

/-! ## 2. Mobile menu (lines 52-74) -/

/-- Lines 58-62. -/
def openMenu (d : Document) (s : Page) : Page :=
  match d.mobileMenu with
  | none => s
  | some mobileMenu => { s.classListAdd mobileMenu "open" with bodyOverflow := "hidden" }

/-- Lines 64-68. -/
def closeMenu (d : Document) (s : Page) : Page :=
  match d.mobileMenu with
  | none => s
  | some mobileMenu => { s.classListRemove mobileMenu "open" with bodyOverflow := "" }

/-! ## 3. Scroll reveal (lines 80-99) -/

/-- One `IntersectionObserverEntry`, as far as the callback reads it. -/
structure IntersectionObserverEntry where
  target : Element
  isIntersecting : Bool
  deriving DecidableEq

/-- Statement `revealObserver.observe(el)`: a target already observed is not added
again. -/
def Page.observe (s : Page) (el : Element) : Page :=
  match s.revealObserver with
  | none => s
  | some targets =>
    { s with revealObserver := some (if el ∈ targets then targets else targets ++ [el]) }

/-- Statement `revealObserver.unobserve(el)`. -/
def Page.unobserve (s : Page) (el : Element) : Page :=
  match s.revealObserver with
  | none => s
  | some targets => { s with revealObserver := some (targets.filter (fun x => x != el)) }

/-- Whether `el` is under observation. -/
def Page.observes (s : Page) (el : Element) : Bool :=
  match s.revealObserver with
  | none => false
  | some targets => targets.contains el

/-- Lines 88-93, the body of the `entries.forEach` of the callback. -/
def revealEntry (s : Page) (entry : IntersectionObserverEntry) : Page :=
  if entry.isIntersecting then
    (s.classListAdd entry.target "visible").unobserve entry.target
  else s

/-- Lines 87-94, the observer callback. -/
def revealCallback (entries : List IntersectionObserverEntry) (s : Page) : Page :=
  entries.foldl revealEntry s

/-- Lines 83-99, run once at load. -/
def initReveal (d : Document) (isLiteMode : Bool) (s : Page) : Page :=
  if isLiteMode || !d.hasIntersectionObserver then
    d.revealElements.foldl (fun s el => s.classListAdd el "visible") s
  else
    d.revealElements.foldl (fun s el => s.observe el) { s with revealObserver := some [] }

/-! ## 4. Smooth scrolling for anchor links (lines 105-125) -/

/-- The call `document.querySelector(selector)`.  The empty string, a lone "#" and
"#" followed by a digit are not selectors and raise; every other string is
left to the selector engine of the document. -/
def querySelector (d : Document) (selector : String) : Except DOMException (Option Element) :=
  match selector.toList with
  | [] => .error .invalidSelector
  | ['#'] => .error .invalidSelector
  | '#' :: c :: _ => if c.isDigit then .error .invalidSelector else d.select selector
  | _ => d.select selector

/-- What one run of the click handler leaves behind: whether
`e.preventDefault()` was called, and the page. -/
structure ClickResult where
  defaultPrevented : Bool
  page : Page

/-- Lines 108-124, the click handler of an anchor link; `href` is what
`this.getAttribute("href")` returns at the time of the click. -/
def anchorClick (d : Document) (isLiteMode : Bool) (href : Option String) (s : Page) :
    Except DOMException ClickResult :=
  match href with
  | none => .ok ⟨false, s⟩
  | some targetId =>
    if targetId = "" ∨ targetId = "#" then .ok ⟨false, s⟩
    else
      match querySelector d targetId with
      | .error e => .error e
      | .ok none => .ok ⟨false, s⟩
      | .ok (some targetEl) =>
        let headerHeight : Int :=
          match d.header with
          | some header => s.offsetHeight header
          | none => 0
        let targetPosition := s.offsetTop targetEl - headerHeight
        .ok ⟨true, { s with scrollToCalls := s.scrollToCalls ++
          [{ top := targetPosition, behavior := if isLiteMode then .auto else .smooth }] }⟩

/-! ## Events -/

/-- What can happen to the page after load: a scroll to offset `y`, a new
layout, a click on one of the four menu controls (lines 70-74), a click on
an anchor link whose `href` attribute currently reads `href`, and a
notification of the reveal observer. -/
inductive Event where
  | scroll (y : ℚ)
  | layout (offsetTop offsetHeight : Element → Int)
  | openBtnClick
  | closeBtnClick
  | menuOverlayClick
  | menuLinkClick
  | anchorLinkClick (href : Option String)
  | intersection (entries : List IntersectionObserverEntry)

/-- One event.  An exception raised by the anchor handler ends that
handler; the page is as before.  A notification is delivered only by a
constructed observer. -/
def step (d : Document) (isLiteMode : Bool) (s : Page) : Event → Page
  | .scroll y => handleScroll d { s with scrollY := y }
  | .layout top height => { s with offsetTop := top, offsetHeight := height }
  | .openBtnClick => openMenu d s
  | .closeBtnClick => closeMenu d s
  | .menuOverlayClick => closeMenu d s
  | .menuLinkClick => closeMenu d s
  | .anchorLinkClick href =>
    match anchorClick d isLiteMode href s with
    | .ok r => r.page
    | .error _ => s
  | .intersection entries =>
    match s.revealObserver with
    | none => s
    | some _ => revealCallback entries s

/-- A sequence of events, oldest first. -/
def run (d : Document) (isLiteMode : Bool) (s : Page) (evs : List Event) : Page :=
  evs.foldl (step d isLiteMode) s

/-! ## 5. Map loader (lines 141-184) -/

/-- The `iframe` element the loader builds (lines 154-163). -/
structure IFrame where
  title : String
  src : String
  width : String
  height : String
  styleBorder : String
  styleDisplay : String
  loading : String
  referrerPolicy : String
  allowfullscreen : Option String
  deriving DecidableEq

/-- The `img` element the loader builds (lines 168-174). -/
structure Img where
  src : String
  alt : String
  styleWidth : String
  styleHeight : String
  styleObjectFit : String
  loading : String
  deriving DecidableEq

/-- The children a map container can have: an iframe, an image, a text
node, or any other markup it held before the script ran. -/
inductive Node where
  | iframe (f : IFrame)
  | img (i : Img)
  | text (data : String)
  | markup (html : String)
  deriving DecidableEq

/-- The element with id `map-container`: its two data attributes, its
children and the three inline style properties the loader sets. -/
structure MapContainer where
  dataSrc : Option String
  dataImg : Option String
  childNodes : List Node
  styleDisplay : String
  styleAlignItems : String
  styleJustifyContent : String
  deriving DecidableEq

/-- Line 148: `!!mapSrc && !isLiteMode && !isPoorNetwork`. -/
def shouldLoadMap (mapSrc : Option String) (isLiteMode isPoorNetwork : Bool) : Bool :=
  truthyStr mapSrc && !isLiteMode && !isPoorNetwork

/-- Lines 145-183, on a container that exists. -/
def loadMapInto (mapContainer : MapContainer) (isLiteMode isPoorNetwork : Bool) : MapContainer :=
  let mapSrc := mapContainer.dataSrc
  let imgSrc := mapContainer.dataImg
  let cleared := { mapContainer with childNodes := [] }
  if shouldLoadMap mapSrc isLiteMode isPoorNetwork then
    let iframe : IFrame :=
      { title := "Ubicación", src := orEmpty mapSrc, width := "100%", height := "280",
        styleBorder := "0", styleDisplay := "block", loading := "lazy",
        referrerPolicy := "no-referrer-when-downgrade", allowfullscreen := some "" }
    { cleared with childNodes := cleared.childNodes ++ [.iframe iframe] }
  else if truthyStr imgSrc then
    let img : Img :=
      { src := orEmpty imgSrc, alt := "Mapa", styleWidth := "100%", styleHeight := "100%",
        styleObjectFit := "cover", loading := "lazy" }
    { cleared with childNodes := cleared.childNodes ++ [.img img] }
  else
    { cleared with
      styleDisplay := "flex", styleAlignItems := "center", styleJustifyContent := "center",
      childNodes := [.text "Mapa no disponible"] }

/-- Lines 141-184: the loader returns at once when there is no container. -/
def mapLoader (mapContainer : Option MapContainer) (isLiteMode isPoorNetwork : Bool) :
    Option MapContainer :=
  match mapContainer with
  | none => none
  | some c => some (loadMapInto c isLiteMode isPoorNetwork)

/-- The three outputs of the decision table of the specification. -/
inductive MapOutput where
  | interactiveEmbed
  | fallbackImage
  | unavailableMessage
  deriving DecidableEq

/-- Which of the three outputs a container shows, if any. -/
def renderedOutput (c : MapContainer) : Option MapOutput :=
  match c.childNodes with
  | [.iframe _] => some .interactiveEmbed
  | [.img _] => some .fallbackImage
  | [.text data] => if data = "Mapa no disponible" then some .unavailableMessage else none
  | _ => none

/-- The six rows of the decision table of the specification, in the order
(mapSrc present, liteMode, poorNetwork, imgSrc present); `none` stands for
"any", and a combination no row covers has no entry. -/
def specTableRows : List ((Bool × Option Bool × Option Bool × Option Bool) × MapOutput) :=
  [ ((true, some false, some false, none), .interactiveEmbed),
    ((true, some true, none, some true), .fallbackImage),
    ((true, none, some true, some true), .fallbackImage),
    ((true, some true, none, some false), .unavailableMessage),
    ((false, none, none, some true), .fallbackImage),
    ((false, none, none, some false), .unavailableMessage) ]

/-- Whether a cell of the table admits a value. -/
def cellAdmits (cell : Option Bool) (b : Bool) : Bool :=
  match cell with
  | none => true
  | some x => x == b

/-- Whether a row of the table covers the four inputs. -/
def rowCovers (row : Bool × Option Bool × Option Bool × Option Bool)
    (mapSrc lite poor imgSrc : Bool) : Bool :=
  (row.1 == mapSrc) && cellAdmits row.2.1 lite && cellAdmits row.2.2.1 poor
    && cellAdmits row.2.2.2 imgSrc

/-- The output as a function of the four inputs of the table: the embed
when the three conditions hold, else the image if there is one, else the
message. -/
def tableOutput (mapSrc lite poor imgSrc : Bool) : MapOutput :=
  if mapSrc && !lite && !poor then .interactiveEmbed
  else if imgSrc then .fallbackImage
  else .unavailableMessage

/-- A container holding stale markup and an old iframe, with both
sources set. -/
def demoContainer : MapContainer :=
  { dataSrc := some "https://maps.example/embed"
    dataImg := some "img/map.jpg"
    childNodes := [.markup "<p>old</p>", .iframe ⟨"", "old", "", "", "", "", "", "", none⟩]
    styleDisplay := ""
    styleAlignItems := ""
    styleJustifyContent := "" }

/-! ## Sample inputs -/

/-- A document with every optional element present; element 0 is the
header and is also tagged for reveal, "#section1" selects element 7. -/
def demoDocument : Document :=
  { header := some 0
    mobileMenu := some 1
    openBtn := some 2
    closeBtn := some 3
    menuOverlay := some 4
    menuLinks := [5, 6]
    revealElements := [7, 8, 0]
    hasIntersectionObserver := true
    select := fun sel => if sel = "#section1" then .ok (some 7) else .ok none }

/-- A freshly loaded page: no classes set, the header 80 high and element
7 at offset 500. -/
def demoPage : Page :=
  { scrollY := 0
    classList := fun _ => []
    bodyOverflow := ""
    offsetTop := fun e => if e = 7 then 500 else 0
    offsetHeight := fun e => if e = 0 then 80 else 0
    revealObserver := none
    scrollToCalls := [] }

/-! ### Properties of the network classifier -/

theorem slowTypes_contains (e : String) :
    ["slow-2g", "2g", "3g"].contains e = decide (e = "slow-2g" ∨ e = "2g" ∨ e = "3g") := by
  simp only [List.contains, List.elem_cons, List.elem_nil]
  by_cases h1 : e = "slow-2g"
  · subst h1; rfl
  · by_cases h2 : e = "2g"
    · subst h2; rfl
    · by_cases h3 : e = "3g"
      · subst h3; rfl
      · have e1 : (e == "slow-2g") = false := by rw [beq_eq_false_iff_ne]; exact h1
        have e2 : (e == "2g") = false := by rw [beq_eq_false_iff_ne]; exact h2
        have e3 : (e == "3g") = false := by rw [beq_eq_false_iff_ne]; exact h3
        simp only [e1, e2, e3, h1, h2, h3, or_self, decide_False]

theorem orEmpty_eq_iff (o : Option String) (k : String) (hk : k ≠ "") :
    orEmpty o = k ↔ o = some k := by
  cases o with
  | none => simp only [orEmpty, reduceCtorEq, iff_false]; exact fun h => hk h.symm
  | some s => simp only [orEmpty, Option.some.injEq]

theorem isPoorNetwork_some (nav : Navigator) (c : Connection) (h : connection nav = some c) :
    isPoorNetwork nav = decide (c.type = some "cellular" ∨ c.effectiveType = some "slow-2g"
        ∨ c.effectiveType = some "2g" ∨ c.effectiveType = some "3g") := by
  simp only [isPoorNetwork, h, slowTypes_contains]
  have a1 := orEmpty_eq_iff c.type "cellular" (by decide)
  have a2 := orEmpty_eq_iff c.effectiveType "slow-2g" (by decide)
  have a3 := orEmpty_eq_iff c.effectiveType "2g" (by decide)
  have a4 := orEmpty_eq_iff c.effectiveType "3g" (by decide)
  simp only [Bool.or_eq_true, beq_iff_eq, decide_eq_true_eq, a1, a2, a3, a4]
  by_cases hp : c.type = some "cellular" ∨ c.effectiveType = some "slow-2g"
        ∨ c.effectiveType = some "2g" ∨ c.effectiveType = some "3g"
  · simp only [hp, if_true, decide_True]
  · simp only [hp, if_false, decide_False]

theorem isLiteMode_some (nav : Navigator) (c : Connection) (h : connection nav = some c) :
    isLiteMode nav = decide (c.saveData = some true) := by
  simp only [isLiteMode, h]
  rcases hs : c.saveData with _ | b
  · rfl
  · cases b <;> rfl

/-- C3: the classifier of the script equals its reference definition on
every navigator: the flags computed by lines 17-31 are those of
`classifySpec` applied to the connection metadata the script selects; the
metadata is absent exactly when none of the three navigator properties
exists, and then both flags are false; type "cellular" gives a poor network
for every effective type, and effective type "3g" gives it also on wifi. -/
theorem network_classifier_refines_spec :
    (∀ nav : Navigator,
      ({ liteMode := isLiteMode nav, poorNetwork := isPoorNetwork nav } : NetworkProfile)
        = classifySpec (connection nav)) ∧
    (∀ nav : Navigator, connection nav = none ↔
      (nav.connection = none ∧ nav.mozConnection = none ∧ nav.webkitConnection = none)) ∧
    (∀ nav : Navigator, connection nav = none →
      isLiteMode nav = false ∧ isPoorNetwork nav = false) ∧
    (∀ (nav : Navigator) (c : Connection), connection nav = some c →
      (isLiteMode nav = true ↔ c.saveData = some true) ∧
      (isPoorNetwork nav = true ↔ (c.type = some "cellular" ∨ c.effectiveType = some "slow-2g"
        ∨ c.effectiveType = some "2g" ∨ c.effectiveType = some "3g"))) ∧
    (∀ (nav : Navigator) (c : Connection), connection nav = some c →
      c.type = some "cellular" → isPoorNetwork nav = true) ∧
    (∀ (nav : Navigator) (c : Connection), connection nav = some c →
      c.type = some "wifi" → c.effectiveType = some "3g" → isPoorNetwork nav = true) := by
  refine ⟨?_, ?_, ?_, ?_, ?_, ?_⟩
  · intro nav
    rcases h : connection nav with _ | c
    · simp only [isLiteMode, isPoorNetwork, h, classifySpec]
    · simp only [isLiteMode_some nav c h, isPoorNetwork_some nav c h, classifySpec]
  · intro nav
    obtain ⟨a, b, c⟩ := nav
    cases a <;> cases b <;> cases c <;> simp [connection]
  · intro nav h
    simp only [isLiteMode, isPoorNetwork, h, and_self]
  · intro nav c h
    simp only [isLiteMode_some nav c h, isPoorNetwork_some nav c h, decide_eq_true_eq,
      and_self]
  · intro nav c h ht
    simp only [isPoorNetwork_some nav c h, ht, true_or, decide_True]
  · intro nav c h _ he
    simp only [isPoorNetwork_some nav c h, he, or_true, decide_True]

/-- Witness for C3 at `navWifi3g`. -/
theorem network_classifier_refines_spec_witness : isPoorNetwork navWifi3g = true :=
  network_classifier_refines_spec.2.2.2.2.2 navWifi3g
    ⟨some false, some "wifi", some "3g"⟩ rfl rfl rfl

/-! ### Properties of the map loader -/

theorem shouldLoadMap_iff (mapSrc : Option String) (lite poor : Bool) :
    shouldLoadMap mapSrc lite poor = true ↔
      ((∃ u, mapSrc = some u ∧ u ≠ "") ∧ lite = false ∧ poor = false) := by
  cases mapSrc <;> cases lite <;> cases poor <;> simp [shouldLoadMap, truthyStr]

theorem truthyStr_iff (a : Option String) :
    truthyStr a = true ↔ ∃ u, a = some u ∧ u ≠ "" := by
  cases a <;> simp [truthyStr]

/-- C1: for every value of `data-src` (absent, empty or a non-empty
string), every pair of flags and every prior content of an existing map
container, the loader leaves an iframe in the container if and only if the
map source is a non-empty string, liteMode is false and poorNetwork is
false, and then the container holds exactly that one iframe, with the map
source as its `src`; in every other case the container holds no iframe and
its content is that of the fallback branch (the image or the message). -/
theorem mapLoader_embeds_iff (c : MapContainer) (lite poor : Bool) :
    ∃ r, mapLoader (some c) lite poor = some r ∧
      ((∃ f, Node.iframe f ∈ r.childNodes) ↔
        ((∃ u, c.dataSrc = some u ∧ u ≠ "") ∧ lite = false ∧ poor = false)) ∧
      (∀ u, c.dataSrc = some u → u ≠ "" → lite = false → poor = false →
        r.childNodes =
          [.iframe { title := "Ubicación", src := u, width := "100%", height := "280",
                     styleBorder := "0", styleDisplay := "block", loading := "lazy",
                     referrerPolicy := "no-referrer-when-downgrade",
                     allowfullscreen := some "" }]) ∧
      (¬ ((∃ u, c.dataSrc = some u ∧ u ≠ "") ∧ lite = false ∧ poor = false) →
        (∀ f, Node.iframe f ∉ r.childNodes) ∧
        (renderedOutput r = some .fallbackImage ∨
          renderedOutput r = some .unavailableMessage)) := by
  refine ⟨loadMapInto c lite poor, rfl, ?_, ?_, ?_⟩
  · rw [← shouldLoadMap_iff]
    unfold loadMapInto
    by_cases h : shouldLoadMap c.dataSrc lite poor = true
    · simp [h]
    · by_cases hi : truthyStr c.dataImg = true <;> simp [h, hi]
  · intro u hu hne hl hp
    have h : shouldLoadMap c.dataSrc lite poor = true :=
      (shouldLoadMap_iff _ _ _).2 ⟨⟨u, hu, hne⟩, hl, hp⟩
    unfold loadMapInto
    rw [if_pos h]
    simp [hu, orEmpty]
  · intro hn
    rw [← shouldLoadMap_iff] at hn
    unfold loadMapInto
    by_cases hi : truthyStr c.dataImg = true <;> simp [hn, hi, renderedOutput]

/-- Witness for C1 at `demoContainer` on a good connection. -/
theorem mapLoader_embeds_iff_witness :
    ∃ r, mapLoader (some demoContainer) false false = some r ∧
      ((∃ f, Node.iframe f ∈ r.childNodes) ↔
        ((∃ u, demoContainer.dataSrc = some u ∧ u ≠ "") ∧ false = false ∧ false = false)) ∧
      (∀ u, demoContainer.dataSrc = some u → u ≠ "" → false = false → false = false →
        r.childNodes =
          [.iframe { title := "Ubicación", src := u, width := "100%", height := "280",
                     styleBorder := "0", styleDisplay := "block", loading := "lazy",
                     referrerPolicy := "no-referrer-when-downgrade",
                     allowfullscreen := some "" }]) ∧
      (¬ ((∃ u, demoContainer.dataSrc = some u ∧ u ≠ "") ∧ false = false ∧ false = false) →
        (∀ f, Node.iframe f ∉ r.childNodes) ∧
        (renderedOutput r = some .fallbackImage ∨
          renderedOutput r = some .unavailableMessage)) :=
  mapLoader_embeds_iff demoContainer false false

theorem renderedOutput_loadMapInto (c : MapContainer) (lite poor : Bool) :
    renderedOutput (loadMapInto c lite poor)
      = some (tableOutput (truthyStr c.dataSrc) lite poor (truthyStr c.dataImg)) := by
  unfold loadMapInto tableOutput shouldLoadMap
  by_cases h : (truthyStr c.dataSrc && !lite && !poor) = true
  · simp [h, renderedOutput]
  · by_cases hi : truthyStr c.dataImg = true
    · simp [h, hi, renderedOutput]
    · simp [h, hi, renderedOutput]

/-- C2: for every map container (any prior content), every value of the
two data attributes and both flags: when the embed is not loaded, the
container holds exactly the fallback image (src = `data-img`, object-fit
cover, loading lazy) if `data-img` is a non-empty string, and exactly the
text "Mapa no disponible" with centring flex styles if it is absent or
empty; every row of the six-row decision table gives the listed output;
the output is the function `tableOutput` of the four table inputs; and the
row mapSrc present, liteMode false, poorNetwork true, imgSrc absent, which
the table does not list, gives the text message. -/
theorem mapLoader_fallback_table (c : MapContainer) (lite poor : Bool) :
    ∃ r, mapLoader (some c) lite poor = some r ∧
      (¬ ((∃ u, c.dataSrc = some u ∧ u ≠ "") ∧ lite = false ∧ poor = false) →
        (∀ v, c.dataImg = some v → v ≠ "" →
          r.childNodes = [.img ⟨v, "Mapa", "100%", "100%", "cover", "lazy"⟩]) ∧
        ((c.dataImg = none ∨ c.dataImg = some "") →
          r.childNodes = [.text "Mapa no disponible"] ∧ r.styleDisplay = "flex" ∧
          r.styleAlignItems = "center" ∧ r.styleJustifyContent = "center")) ∧
      (∀ row ∈ specTableRows,
        rowCovers row.1 (truthyStr c.dataSrc) lite poor (truthyStr c.dataImg) = true →
          renderedOutput r = some row.2) ∧
      renderedOutput r
        = some (tableOutput (truthyStr c.dataSrc) lite poor (truthyStr c.dataImg)) ∧
      (truthyStr c.dataSrc = true → lite = false → poor = true → truthyStr c.dataImg = false →
        renderedOutput r = some .unavailableMessage) := by
  refine ⟨loadMapInto c lite poor, rfl, ?_, ?_, renderedOutput_loadMapInto c lite poor, ?_⟩
  · intro hn
    rw [← shouldLoadMap_iff] at hn
    have hn2 : shouldLoadMap c.dataSrc lite poor = false := by simpa using hn
    constructor
    · intro v hv hne
      have hi : truthyStr c.dataImg = true := (truthyStr_iff _).2 ⟨v, hv, hne⟩
      simp only [loadMapInto, hn2, hi, if_true, Bool.false_eq_true, if_false]
      simp [hv, orEmpty]
    · intro hv
      have hi : truthyStr c.dataImg = false := by
        rcases hv with hv | hv <;> rw [hv] <;> rfl
      unfold loadMapInto
      simp [hn2, hi]
  · intro row hrow hcov
    rw [renderedOutput_loadMapInto]
    revert hcov
    generalize truthyStr c.dataSrc = m
    generalize truthyStr c.dataImg = i
    simp only [specTableRows, List.mem_cons, List.mem_singleton, List.not_mem_nil,
      or_false] at hrow
    rcases hrow with h | h | h | h | h | h <;> subst h <;>
      cases m <;> cases lite <;> cases poor <;> cases i <;>
      simp [rowCovers, cellAdmits, tableOutput]
  · intro hm hl hp hi
    rw [renderedOutput_loadMapInto, hm, hl, hp, hi]
    rfl

/-- Witness for C2 at `demoContainer` in lite mode. -/
theorem mapLoader_fallback_table_witness :
    ∃ r, mapLoader (some demoContainer) true false = some r ∧
      r.childNodes = [.img ⟨"img/map.jpg", "Mapa", "100%", "100%", "cover", "lazy"⟩] := by
  obtain ⟨r, hr, h, _⟩ := mapLoader_fallback_table demoContainer true false
  exact ⟨r, hr, (h (by simp)).1 "img/map.jpg" rfl (by decide)⟩

/-! ### Class lists -/

theorem mem_tokensAdd (tokens : List String) (t u : String) :
    u ∈ tokensAdd tokens t ↔ u ∈ tokens ∨ u = t := by
  unfold tokensAdd
  by_cases h : t ∈ tokens
  · rw [if_pos h]
    constructor
    · exact fun hu => Or.inl hu
    · rintro (hu | hu)
      · exact hu
      · rw [hu]; exact h
  · rw [if_neg h]
    simp only [List.mem_append, List.mem_singleton]

theorem mem_tokensRemove (tokens : List String) (t u : String) :
    u ∈ tokensRemove tokens t ↔ u ∈ tokens ∧ u ≠ t := by
  unfold tokensRemove
  simp only [List.mem_filter, bne_iff_ne, ne_eq]

theorem tokensAdd_idem (tokens : List String) (t : String) :
    tokensAdd (tokensAdd tokens t) t = tokensAdd tokens t := by
  have h : t ∈ tokensAdd tokens t := (mem_tokensAdd tokens t t).2 (Or.inr rfl)
  have e : tokensAdd (tokensAdd tokens t) t
      = if t ∈ tokensAdd tokens t then tokensAdd tokens t else tokensAdd tokens t ++ [t] := rfl
  rw [e, if_pos h]

theorem tokensRemove_idem (tokens : List String) (t : String) :
    tokensRemove (tokensRemove tokens t) t = tokensRemove tokens t := by
  unfold tokensRemove
  rw [List.filter_filter]
  simp only [Bool.and_self]

theorem hasClass_iff (s : Page) (el : Element) (t : String) :
    s.hasClass el t = true ↔ t ∈ s.classList el := by
  unfold Page.hasClass
  simp only [List.contains, List.elem_iff]

theorem hasClass_eq_false_iff (s : Page) (el : Element) (t : String) :
    s.hasClass el t = false ↔ t ∉ s.classList el := by
  rw [← hasClass_iff, Bool.not_eq_true]

theorem mem_classListAdd (s : Page) (el x : Element) (t u : String) :
    u ∈ (s.classListAdd el t).classList x ↔ u ∈ s.classList x ∨ (x = el ∧ u = t) := by
  unfold Page.classListAdd
  by_cases h : x = el
  · subst h
    simp only [if_true, mem_tokensAdd, true_and]
  · simp only [h, if_false, false_and, or_false]

theorem mem_classListRemove (s : Page) (el x : Element) (t u : String) :
    u ∈ (s.classListRemove el t).classList x ↔ u ∈ s.classList x ∧ ¬ (x = el ∧ u = t) := by
  unfold Page.classListRemove
  by_cases h : x = el
  · subst h
    simp only [if_true, mem_tokensRemove, true_and, ne_eq]
  · simp only [h, if_false, false_and, not_false_eq_true, and_true]

theorem classListAdd_idem (s : Page) (el : Element) (t : String) :
    (s.classListAdd el t).classListAdd el t = s.classListAdd el t := by
  unfold Page.classListAdd
  simp only [if_true, tokensAdd_idem]
  congr 1
  funext x
  by_cases h : x = el <;> simp only [h, if_true, if_false]

theorem classListRemove_idem (s : Page) (el : Element) (t : String) :
    (s.classListRemove el t).classListRemove el t = s.classListRemove el t := by
  unfold Page.classListRemove
  simp only [if_true, tokensRemove_idem]
  congr 1
  funext x
  by_cases h : x = el <;> simp only [h, if_true, if_false]

/-! ### Header scroll effect -/

theorem handleScroll_scrollY (d : Document) (s : Page) :
    (handleScroll d s).scrollY = s.scrollY := by
  unfold handleScroll
  rcases d.header with _ | header
  · rfl
  · by_cases h : s.scrollY > 60
    · simp only [h, if_true, Page.classListAdd]
    · simp only [h, if_false, Page.classListRemove]

theorem mem_handleScroll (d : Document) (s : Page) (x : Element) (u : String)
    (hu : u ≠ "scrolled") :
    u ∈ (handleScroll d s).classList x ↔ u ∈ s.classList x := by
  unfold handleScroll
  rcases d.header with _ | header
  · rfl
  · by_cases h : s.scrollY > 60
    · simp only [h, if_true, mem_classListAdd, hu, and_false, or_false]
    · simp only [h, if_false, mem_classListRemove, hu, and_false, not_false_eq_true, and_true]

/-- C6: with the header present, for every page state (any scroll offset
and any prior class list) the header carries "scrolled" after
`handleScroll` if and only if the offset exceeds 60, so not at 60; the
outcome is the same from any two prior states at the same offset, no other
class of any element changes, and a second call at the same offset changes
nothing; without a header `handleScroll` changes nothing. -/
theorem handleScroll_threshold (d : Document) :
    (∀ header, d.header = some header →
      (∀ s : Page, (handleScroll d s).hasClass header "scrolled" = true ↔ s.scrollY > 60) ∧
      (∀ s : Page, s.scrollY = 60 → (handleScroll d s).hasClass header "scrolled" = false) ∧
      (∀ s1 s2 : Page, s1.scrollY = s2.scrollY →
        (handleScroll d s1).hasClass header "scrolled"
          = (handleScroll d s2).hasClass header "scrolled") ∧
      (∀ (s : Page) (x : Element) (u : String), u ≠ "scrolled" →
        (handleScroll d s).hasClass x u = s.hasClass x u)) ∧
    (∀ s : Page, handleScroll d (handleScroll d s) = handleScroll d s) ∧
    (d.header = none → ∀ s : Page, handleScroll d s = s) := by
  have key : ∀ header, d.header = some header → ∀ s : Page,
      ((handleScroll d s).hasClass header "scrolled" = true ↔ s.scrollY > 60) := by
    intro header hh s
    rw [hasClass_iff]
    unfold handleScroll
    rw [hh]
    by_cases h : s.scrollY > 60
    · simp only [h, if_true, mem_classListAdd, and_self, or_true]
    · simp only [h, if_false, mem_classListRemove, and_self, not_true_eq_false, and_false]
  refine ⟨fun header hh => ⟨key header hh, ?_, ?_, ?_⟩, ?_, ?_⟩
  · intro s hy
    rw [← Bool.not_eq_true, key header hh s, hy]
    exact lt_irrefl _
  · intro s1 s2 hy
    rw [Bool.eq_iff_iff, key header hh s1, key header hh s2, hy]
  · intro s x u hu
    rw [Bool.eq_iff_iff, hasClass_iff, hasClass_iff]
    exact mem_handleScroll d s x u hu
  · intro s
    unfold handleScroll
    rcases d.header with _ | header
    · rfl
    · have e1 : (s.classListAdd header "scrolled").scrollY = s.scrollY := rfl
      have e2 : (s.classListRemove header "scrolled").scrollY = s.scrollY := rfl
      by_cases h : s.scrollY > 60
      · simp only [h, if_true, e1, classListAdd_idem]
      · simp only [h, if_false, e2, classListRemove_idem]
  · intro hh s
    unfold handleScroll
    rw [hh]

/-- Witness for C6: the sample document has its header, and scrolled to
offset 61 the header carries "scrolled". -/
theorem handleScroll_threshold_witness :
    (handleScroll demoDocument { demoPage with scrollY := 61 }).hasClass 0 "scrolled" = true :=
  ((handleScroll_threshold demoDocument).1 0 rfl).1 { demoPage with scrollY := 61 } |>.2
    (by show (61 : ℚ) > 60; norm_num)

/-! ### What the anchor handler and the observer callback leave alone -/

theorem anchorClick_cases (d : Document) (lite : Bool) (href : Option String) (s : Page) :
    anchorClick d lite href s = .ok ⟨false, s⟩ ∨
    (∃ e, anchorClick d lite href s = .error e) ∨
    (∃ top, anchorClick d lite href s = .ok ⟨true, { s with scrollToCalls :=
      s.scrollToCalls ++ [⟨top, if lite then .auto else .smooth⟩] }⟩) := by
  unfold anchorClick
  rcases href with _ | targetId
  · exact Or.inl rfl
  · dsimp only
    by_cases h : targetId = "" ∨ targetId = "#"
    · rw [if_pos h]
      exact Or.inl rfl
    · rw [if_neg h]
      rcases querySelector d targetId with e | (_ | targetEl)
      · exact Or.inr (Or.inl ⟨e, rfl⟩)
      · exact Or.inl rfl
      · exact Or.inr (Or.inr ⟨_, rfl⟩)

theorem step_anchor_fields (d : Document) (lite : Bool) (s : Page) (href : Option String) :
    (step d lite s (.anchorLinkClick href)).classList = s.classList ∧
    (step d lite s (.anchorLinkClick href)).bodyOverflow = s.bodyOverflow ∧
    (step d lite s (.anchorLinkClick href)).revealObserver = s.revealObserver := by
  have e : step d lite s (.anchorLinkClick href)
      = match anchorClick d lite href s with
        | .ok r => r.page
        | .error _ => s := rfl
  rw [e]
  rcases anchorClick_cases d lite href s with h | ⟨e, h⟩ | ⟨top, h⟩ <;> rw [h] <;>
    exact ⟨rfl, rfl, rfl⟩

theorem mem_revealEntry (s : Page) (e : IntersectionObserverEntry) (x : Element) (u : String) :
    u ∈ (revealEntry s e).classList x ↔
      u ∈ s.classList x ∨ (e.isIntersecting = true ∧ e.target = x ∧ u = "visible") := by
  unfold revealEntry
  by_cases h : e.isIntersecting = true
  · have e1 : ((s.classListAdd e.target "visible").unobserve e.target).classList
        = (s.classListAdd e.target "visible").classList := by
      unfold Page.unobserve
      rcases (s.classListAdd e.target "visible").revealObserver with _ | ts <;> rfl
    simp only [h, if_true, e1, mem_classListAdd, true_and]
    constructor
    · rintro (hu | ⟨hx, hu⟩)
      · exact Or.inl hu
      · exact Or.inr ⟨hx.symm, hu⟩
    · rintro (hu | ⟨hx, hu⟩)
      · exact Or.inl hu
      · exact Or.inr ⟨hx.symm, hu⟩
  · simp only [h, if_false, false_and, or_false, Bool.false_eq_true]

theorem revealEntry_bodyOverflow (s : Page) (e : IntersectionObserverEntry) :
    (revealEntry s e).bodyOverflow = s.bodyOverflow := by
  unfold revealEntry
  by_cases h : e.isIntersecting = true
  · simp only [h, if_true]
    unfold Page.unobserve
    rcases (s.classListAdd e.target "visible").revealObserver with _ | ts <;> rfl
  · simp only [h, if_false, Bool.false_eq_true]

theorem mem_revealCallback (entries : List IntersectionObserverEntry) (s : Page)
    (x : Element) (u : String) :
    u ∈ (revealCallback entries s).classList x ↔
      u ∈ s.classList x ∨
        (∃ e ∈ entries, e.isIntersecting = true ∧ e.target = x ∧ u = "visible") := by
  unfold revealCallback
  induction entries generalizing s with
  | nil => simp only [List.foldl_nil, List.not_mem_nil, false_and, exists_false, or_false]
  | cons e rest ih =>
    rw [List.foldl_cons, ih, mem_revealEntry]
    simp only [List.mem_cons, exists_eq_or_imp, or_assoc]

theorem revealCallback_bodyOverflow (entries : List IntersectionObserverEntry) (s : Page) :
    (revealCallback entries s).bodyOverflow = s.bodyOverflow := by
  unfold revealCallback
  induction entries generalizing s with
  | nil => rfl
  | cons e rest ih => rw [List.foldl_cons, ih, revealEntry_bodyOverflow]

/-! ### Mobile menu -/

/-- The class "open" of any element is touched by the menu controls
only. -/
theorem mem_open_step (d : Document) (lite : Bool) (s : Page) (ev : Event) (x : Element)
    (h1 : ev ≠ .openBtnClick) (h2 : ev ≠ .closeBtnClick) (h3 : ev ≠ .menuOverlayClick)
    (h4 : ev ≠ .menuLinkClick) :
    ("open" ∈ (step d lite s ev).classList x ↔ "open" ∈ s.classList x) ∧
      (step d lite s ev).bodyOverflow = s.bodyOverflow := by
  cases ev with
  | scroll y =>
    refine ⟨mem_handleScroll d _ x "open" (by decide), ?_⟩
    show (handleScroll d _).bodyOverflow = _
    unfold handleScroll
    rcases d.header with _ | header
    · rfl
    · dsimp only
      split <;> rfl
  | layout top height => exact ⟨Iff.rfl, rfl⟩
  | openBtnClick => exact absurd rfl h1
  | closeBtnClick => exact absurd rfl h2
  | menuOverlayClick => exact absurd rfl h3
  | menuLinkClick => exact absurd rfl h4
  | anchorLinkClick href =>
    obtain ⟨e1, e2, _⟩ := step_anchor_fields d lite s href
    rw [e1, e2]
    exact ⟨Iff.rfl, rfl⟩
  | intersection entries =>
    unfold step
    rcases s.revealObserver with _ | ts
    · exact ⟨Iff.rfl, rfl⟩
    · refine ⟨?_, revealCallback_bodyOverflow entries s⟩
      rw [mem_revealCallback]
      simp only [String.reduceEq, and_false, exists_false, or_false]

theorem openMenu_spec (d : Document) (m : Element) (hm : d.mobileMenu = some m) (s : Page) :
    (openMenu d s).hasClass m "open" = true ∧ (openMenu d s).bodyOverflow = "hidden" := by
  unfold openMenu
  rw [hm]
  refine ⟨?_, rfl⟩
  rw [hasClass_iff]
  exact (mem_classListAdd s m m "open" "open").2 (Or.inr ⟨rfl, rfl⟩)

theorem closeMenu_spec (d : Document) (m : Element) (hm : d.mobileMenu = some m) (s : Page) :
    (closeMenu d s).hasClass m "open" = false ∧ (closeMenu d s).bodyOverflow = "" := by
  unfold closeMenu
  rw [hm]
  refine ⟨?_, rfl⟩
  rw [hasClass_eq_false_iff]
  intro h
  exact ((mem_classListRemove s m m "open" "open").1 h).2 ⟨rfl, rfl⟩

theorem menu_invariant_step (d : Document) (lite : Bool) (m : Element)
    (hm : d.mobileMenu = some m) (s : Page) (ev : Event)
    (hinv : s.hasClass m "open" = true ↔ s.bodyOverflow = "hidden") :
    (step d lite s ev).hasClass m "open" = true ↔ (step d lite s ev).bodyOverflow = "hidden" := by
  have hopen := openMenu_spec d m hm s
  have hclose := closeMenu_spec d m hm s
  have closed : (closeMenu d s).hasClass m "open" = true
      ↔ (closeMenu d s).bodyOverflow = "hidden" := by
    rw [hclose.1, hclose.2]
    simp only [Bool.false_eq_true, String.reduceEq]
  by_cases h1 : ev = .openBtnClick
  · subst h1
    exact iff_of_true hopen.1 hopen.2
  · by_cases h2 : ev = .closeBtnClick
    · subst h2; exact closed
    · by_cases h3 : ev = .menuOverlayClick
      · subst h3; exact closed
      · by_cases h4 : ev = .menuLinkClick
        · subst h4; exact closed
        · obtain ⟨e1, e2⟩ := mem_open_step d lite s ev m h1 h2 h3 h4
          rw [hasClass_iff, e1, e2, ← hasClass_iff]
          exact hinv

theorem menu_invariant_run (d : Document) (lite : Bool) (m : Element)
    (hm : d.mobileMenu = some m) (evs : List Event) (s : Page)
    (hinv : s.hasClass m "open" = true ↔ s.bodyOverflow = "hidden") :
    (run d lite s evs).hasClass m "open" = true ↔ (run d lite s evs).bodyOverflow = "hidden" := by
  unfold run
  induction evs generalizing s with
  | nil => exact hinv
  | cons ev rest ih =>
    rw [List.foldl_cons]
    exact ih _ (menu_invariant_step d lite m hm s ev hinv)

theorem openMenu_fixed (d : Document) (m : Element) (hm : d.mobileMenu = some m) (s : Page)
    (ho : s.hasClass m "open" = true) (hb : s.bodyOverflow = "hidden") : openMenu d s = s := by
  unfold openMenu
  rw [hm]
  obtain ⟨y, cl, bo, ot, oh, ro, sc⟩ := s
  have ho2 : "open" ∈ cl m := (hasClass_iff _ m "open").1 ho
  simp only [Page.classListAdd] at hb ⊢
  subst hb
  congr 1
  funext x
  by_cases h : x = m
  · subst h
    simp only [if_true, tokensAdd, ho2]
  · simp only [h, if_false]

/-- C5: with the menu panel present and starting from any initial state
in which the menu is closed and page scroll is not locked: after the open
control the menu is open and body overflow is "hidden"; after the close
control, an overlay click or a menu-link click the menu is closed and body
overflow is reset to ""; in every state reached by any sequence of events
(the four menu events, interleaved at will with scrolls, layouts, anchor
clicks and observer notifications) the menu is open exactly when page
scroll is locked; and activating open in a reachable state where the menu
is already open leaves the state unchanged. -/
theorem menu_state_machine (d : Document) (lite : Bool) (m : Element)
    (hm : d.mobileMenu = some m) (s0 : Page)
    (hclosed : s0.hasClass m "open" = false) (hfree : s0.bodyOverflow ≠ "hidden") :
    (∀ s : Page, (step d lite s .openBtnClick).hasClass m "open" = true ∧
      (step d lite s .openBtnClick).bodyOverflow = "hidden") ∧
    (∀ (s : Page) (ev : Event),
      ev = .closeBtnClick ∨ ev = .menuOverlayClick ∨ ev = .menuLinkClick →
        (step d lite s ev).hasClass m "open" = false ∧ (step d lite s ev).bodyOverflow = "") ∧
    (∀ evs : List Event,
      ((run d lite s0 evs).hasClass m "open" = true
        ↔ (run d lite s0 evs).bodyOverflow = "hidden")) ∧
    (∀ evs : List Event, (run d lite s0 evs).hasClass m "open" = true →
      step d lite (run d lite s0 evs) .openBtnClick = run d lite s0 evs) := by
  have hinv0 : s0.hasClass m "open" = true ↔ s0.bodyOverflow = "hidden" := by
    rw [hclosed]
    simp only [Bool.false_eq_true, false_iff]
    exact hfree
  refine ⟨fun s => openMenu_spec d m hm s, ?_, ?_, ?_⟩
  · rintro s ev (h | h | h) <;> subst h <;> exact closeMenu_spec d m hm s
  · intro evs
    exact menu_invariant_run d lite m hm evs s0 hinv0
  · intro evs ho
    exact openMenu_fixed d m hm _ ho ((menu_invariant_run d lite m hm evs s0 hinv0).1 ho)

/-- Witness for C5: the sample document and page, after open, a scroll,
and a menu-link click. -/
theorem menu_state_machine_witness :
    ((run demoDocument false demoPage [.openBtnClick, .scroll 100, .menuLinkClick]).hasClass 1
        "open" = true
      ↔ (run demoDocument false demoPage
          [.openBtnClick, .scroll 100, .menuLinkClick]).bodyOverflow = "hidden") :=
  (menu_state_machine demoDocument false 1 rfl demoPage rfl (by decide)).2.2.1
    [.openBtnClick, .scroll 100, .menuLinkClick]

/-! ### Scroll reveal: initialisation -/

theorem foldl_classListAdd_mem (t : String) (l : List Element) (s : Page) (x : Element)
    (u : String) :
    u ∈ (l.foldl (fun s el => s.classListAdd el t) s).classList x ↔
      u ∈ s.classList x ∨ (x ∈ l ∧ u = t) := by
  induction l generalizing s with
  | nil => simp only [List.foldl_nil, List.not_mem_nil, false_and, or_false]
  | cons el rest ih =>
    rw [List.foldl_cons, ih, mem_classListAdd]
    simp only [List.mem_cons]
    tauto

theorem foldl_classListAdd_observer (t : String) (l : List Element) (s : Page) :
    (l.foldl (fun s el => s.classListAdd el t) s).revealObserver = s.revealObserver := by
  induction l generalizing s with
  | nil => rfl
  | cons el rest ih => rw [List.foldl_cons, ih]; rfl

theorem observe_classList (s : Page) (el : Element) :
    (s.observe el).classList = s.classList := by
  unfold Page.observe
  rcases s.revealObserver with _ | ts <;> rfl

theorem observes_observe (s : Page) (ts : List Element) (hs : s.revealObserver = some ts)
    (el : Element) :
    ∃ ts2, (s.observe el).revealObserver = some ts2 ∧ ∀ x, x ∈ ts2 ↔ x ∈ ts ∨ x = el := by
  unfold Page.observe
  rw [hs]
  refine ⟨_, rfl, fun x => ?_⟩
  by_cases h : el ∈ ts
  · rw [if_pos h]
    constructor
    · exact fun hx => Or.inl hx
    · rintro (hx | hx)
      · exact hx
      · rw [hx]; exact h
  · rw [if_neg h]
    simp only [List.mem_append, List.mem_singleton]

theorem foldl_observe (l : List Element) (s : Page) (ts : List Element)
    (hs : s.revealObserver = some ts) :
    (l.foldl (fun s el => s.observe el) s).classList = s.classList ∧
    ∃ ts2, (l.foldl (fun s el => s.observe el) s).revealObserver = some ts2 ∧
      ∀ x, x ∈ ts2 ↔ x ∈ ts ∨ x ∈ l := by
  induction l generalizing s ts with
  | nil =>
    exact ⟨rfl, ts, hs, fun x => by simp only [List.not_mem_nil, or_false]⟩
  | cons el rest ih =>
    obtain ⟨t1, h1, h1m⟩ := observes_observe s ts hs el
    obtain ⟨hc, t2, h2, h2m⟩ := ih (s.observe el) t1 h1
    rw [List.foldl_cons]
    refine ⟨by rw [hc, observe_classList], t2, h2, fun x => ?_⟩
    rw [h2m, h1m, List.mem_cons, or_assoc]

theorem observes_iff (s : Page) (ts : List Element) (hs : s.revealObserver = some ts)
    (x : Element) : s.observes x = true ↔ x ∈ ts := by
  unfold Page.observes
  rw [hs]
  simp only [List.contains, List.elem_iff]

/-- C9: for every document, flag and page state before initialisation.
If liteMode is true or the runtime has no `IntersectionObserver`, then
after `initReveal` every tagged element carries "visible", the observer
field is what it was (so, starting without one, no observer exists and no
element is observed) and no other class changed.  Otherwise no class list
changes at all, an observer exists, and the elements under observation are
exactly the tagged ones. -/
theorem initReveal_modes (d : Document) (lite : Bool) (s : Page) :
    ((lite = true ∨ d.hasIntersectionObserver = false) →
      (∀ el ∈ d.revealElements, (initReveal d lite s).hasClass el "visible" = true) ∧
      (initReveal d lite s).revealObserver = s.revealObserver ∧
      (s.revealObserver = none → ∀ x, (initReveal d lite s).observes x = false) ∧
      (∀ (x : Element) (u : String), u ≠ "visible" →
        (initReveal d lite s).hasClass x u = s.hasClass x u)) ∧
    ((lite = false ∧ d.hasIntersectionObserver = true) →
      (∀ x, (initReveal d lite s).classList x = s.classList x) ∧
      (initReveal d lite s).revealObserver ≠ none ∧
      (∀ x, (initReveal d lite s).observes x = true ↔ x ∈ d.revealElements)) := by
  constructor
  · intro h
    have hc : (lite || !d.hasIntersectionObserver) = true := by
      rcases h with h | h <;> rw [h] <;> simp only [Bool.true_or, Bool.not_false, Bool.or_true]
    unfold initReveal
    rw [if_pos hc]
    refine ⟨fun el hel => ?_, foldl_classListAdd_observer _ _ _, fun hn x => ?_,
      fun x u hu => ?_⟩
    · rw [hasClass_iff, foldl_classListAdd_mem]
      exact Or.inr ⟨hel, rfl⟩
    · unfold Page.observes
      rw [foldl_classListAdd_observer, hn]
    · rw [Bool.eq_iff_iff, hasClass_iff, hasClass_iff, foldl_classListAdd_mem]
      simp only [hu, and_false, or_false]
  · rintro ⟨hl, ho⟩
    have hc : ¬ ((lite || !d.hasIntersectionObserver) = true) := by
      rw [hl, ho]; decide
    unfold initReveal
    rw [if_neg hc]
    obtain ⟨hcl, ts, hts, hmem⟩ :=
      foldl_observe d.revealElements { s with revealObserver := some [] } [] rfl
    refine ⟨fun x => by rw [hcl], by rw [hts]; exact Option.some_ne_none ts, fun x => ?_⟩
    rw [observes_iff _ ts hts, hmem]
    simp only [List.not_mem_nil, false_or]

/-- Witness for C9: the sample page initialised in lite mode; element 8
is tagged and becomes visible. -/
theorem initReveal_modes_witness :
    (initReveal demoDocument true demoPage).hasClass 8 "visible" = true :=
  ((initReveal_modes demoDocument true demoPage).1 (Or.inl rfl)).1 8 (by decide)

/-! ### Scroll reveal: notifications -/

theorem observes_unobserve (s : Page) (el x : Element) :
    (s.unobserve el).observes x = true ↔ s.observes x = true ∧ x ≠ el := by
  unfold Page.unobserve Page.observes
  rcases hs : s.revealObserver with _ | ts
  · simp only [hs, Bool.false_eq_true, false_and]
  · simp only [List.contains, List.elem_iff, List.mem_filter, bne_iff_ne, ne_eq]

theorem observes_revealEntry (s : Page) (e : IntersectionObserverEntry) (x : Element) :
    (revealEntry s e).observes x = true ↔
      s.observes x = true ∧ ¬ (e.isIntersecting = true ∧ e.target = x) := by
  unfold revealEntry
  by_cases h : e.isIntersecting = true
  · have e1 : (s.classListAdd e.target "visible").observes x = s.observes x := rfl
    simp only [h, if_true, observes_unobserve, e1, true_and, ne_eq]
    constructor
    · rintro ⟨h1, h2⟩
      exact ⟨h1, fun h3 => h2 h3.symm⟩
    · rintro ⟨h1, h2⟩
      exact ⟨h1, fun h3 => h2 h3.symm⟩
  · simp only [h, if_false, false_and, not_false_eq_true, and_true, Bool.false_eq_true]

theorem observes_revealCallback (entries : List IntersectionObserverEntry) (s : Page)
    (x : Element) :
    (revealCallback entries s).observes x = true ↔
      s.observes x = true ∧ ¬ (∃ e ∈ entries, e.isIntersecting = true ∧ e.target = x) := by
  unfold revealCallback
  induction entries generalizing s with
  | nil => simp only [List.foldl_nil, List.not_mem_nil, false_and, exists_false,
      not_false_eq_true, and_true]
  | cons e rest ih =>
    rw [List.foldl_cons, ih, observes_revealEntry]
    simp only [List.mem_cons, exists_eq_or_imp, not_or, and_assoc]

/-- The class "visible" is never removed by a step, and it is added only
by a notification with an intersecting entry for that element. -/
theorem mem_visible_step (d : Document) (lite : Bool) (s : Page) (ev : Event) (x : Element) :
    "visible" ∈ (step d lite s ev).classList x ↔
      "visible" ∈ s.classList x ∨
        (s.revealObserver ≠ none ∧ ∃ entries, ev = .intersection entries ∧
          ∃ e ∈ entries, e.isIntersecting = true ∧ e.target = x) := by
  cases ev with
  | scroll y =>
    have h := mem_handleScroll d { s with scrollY := y } x "visible" (by decide)
    show "visible" ∈ (handleScroll d { s with scrollY := y }).classList x ↔ _
    rw [h]
    simp only [reduceCtorEq, false_and, exists_false, and_false, or_false]
  | layout top height =>
    show "visible" ∈ s.classList x ↔ _
    simp only [reduceCtorEq, false_and, exists_false, and_false, or_false]
  | openBtnClick =>
    show "visible" ∈ (openMenu d s).classList x ↔ _
    unfold openMenu
    rcases d.mobileMenu with _ | m
    · simp only [reduceCtorEq, false_and, exists_false, and_false, or_false]
    · show "visible" ∈ (s.classListAdd m "open").classList x ↔ _
      rw [mem_classListAdd]
      simp only [String.reduceEq, reduceCtorEq, false_and, exists_false, and_false, or_false]
  | closeBtnClick =>
    show "visible" ∈ (closeMenu d s).classList x ↔ _
    unfold closeMenu
    rcases d.mobileMenu with _ | m
    · simp only [reduceCtorEq, false_and, exists_false, and_false, or_false]
    · show "visible" ∈ (s.classListRemove m "open").classList x ↔ _
      rw [mem_classListRemove]
      simp only [String.reduceEq, reduceCtorEq, false_and, exists_false, and_false, or_false,
        not_false_eq_true, and_true]
  | menuOverlayClick =>
    show "visible" ∈ (closeMenu d s).classList x ↔ _
    unfold closeMenu
    rcases d.mobileMenu with _ | m
    · simp only [reduceCtorEq, false_and, exists_false, and_false, or_false]
    · show "visible" ∈ (s.classListRemove m "open").classList x ↔ _
      rw [mem_classListRemove]
      simp only [String.reduceEq, reduceCtorEq, false_and, exists_false, and_false, or_false,
        not_false_eq_true, and_true]
  | menuLinkClick =>
    show "visible" ∈ (closeMenu d s).classList x ↔ _
    unfold closeMenu
    rcases d.mobileMenu with _ | m
    · simp only [reduceCtorEq, false_and, exists_false, and_false, or_false]
    · show "visible" ∈ (s.classListRemove m "open").classList x ↔ _
      rw [mem_classListRemove]
      simp only [String.reduceEq, reduceCtorEq, false_and, exists_false, and_false, or_false,
        not_false_eq_true, and_true]
  | anchorLinkClick href =>
    rw [(step_anchor_fields d lite s href).1]
    simp only [reduceCtorEq, false_and, exists_false, and_false, or_false]
  | intersection entries =>
    unfold step
    rcases hs : s.revealObserver with _ | ts
    · simp only [ne_eq, not_true_eq_false, false_and, or_false]
    · simp only [mem_revealCallback, and_true, ne_eq, reduceCtorEq, not_false_eq_true,
        Event.intersection.injEq, exists_eq_left', true_and]

theorem observes_step_le (d : Document) (lite : Bool) (s : Page) (ev : Event) (x : Element)
    (h : (step d lite s ev).observes x = true) : s.observes x = true := by
  cases ev with
  | scroll y =>
    have e : (handleScroll d { s with scrollY := y }).revealObserver = s.revealObserver := by
      unfold handleScroll
      rcases d.header with _ | header
      · rfl
      · dsimp only
        split <;> rfl
    unfold Page.observes at h ⊢
    rw [← e]
    exact h
  | layout top height => exact h
  | openBtnClick =>
    have e : (openMenu d s).revealObserver = s.revealObserver := by
      unfold openMenu
      rcases d.mobileMenu with _ | m <;> rfl
    unfold Page.observes at h ⊢
    rw [← e]
    exact h
  | closeBtnClick =>
    have e : (closeMenu d s).revealObserver = s.revealObserver := by
      unfold closeMenu
      rcases d.mobileMenu with _ | m <;> rfl
    unfold Page.observes at h ⊢
    rw [← e]
    exact h
  | menuOverlayClick =>
    have e : (closeMenu d s).revealObserver = s.revealObserver := by
      unfold closeMenu
      rcases d.mobileMenu with _ | m <;> rfl
    unfold Page.observes at h ⊢
    rw [← e]
    exact h
  | menuLinkClick =>
    have e : (closeMenu d s).revealObserver = s.revealObserver := by
      unfold closeMenu
      rcases d.mobileMenu with _ | m <;> rfl
    unfold Page.observes at h ⊢
    rw [← e]
    exact h
  | anchorLinkClick href =>
    have e := (step_anchor_fields d lite s href).2.2
    unfold Page.observes at h ⊢
    rw [← e]
    exact h
  | intersection entries =>
    unfold step at h
    rcases hs : s.revealObserver with _ | ts
    · simp only [hs] at h
      unfold Page.observes at h
      rw [hs] at h
      exact absurd h Bool.false_ne_true
    · simp only [hs] at h
      exact ((observes_revealCallback entries s x).1 h).1

/-- C10: for every document, flag, page state and event (a scroll, a
layout, a menu control, an anchor click or an observer notification with
any entries): an element that is pending before the event and visible
after it was the target of an intersecting entry of a notification, and is
no longer observed after that event; a notification of the observer with
an intersecting entry makes its target visible and unobserved; no event
puts an element under observation; an element that is visible stays
visible after every event, hence after every sequence of events. -/
theorem reveal_one_shot (d : Document) (lite : Bool) :
    (∀ (s : Page) (ev : Event) (x : Element),
      s.hasClass x "visible" = false → (step d lite s ev).hasClass x "visible" = true →
        (∃ entries, ev = .intersection entries ∧
          ∃ e ∈ entries, e.isIntersecting = true ∧ e.target = x) ∧
        (step d lite s ev).observes x = false) ∧
    (∀ (s : Page) (entries : List IntersectionObserverEntry) (e : IntersectionObserverEntry),
      s.revealObserver ≠ none → e ∈ entries → e.isIntersecting = true →
        (step d lite s (.intersection entries)).hasClass e.target "visible" = true ∧
        (step d lite s (.intersection entries)).observes e.target = false) ∧
    (∀ (s : Page) (ev : Event) (x : Element),
      (step d lite s ev).observes x = true → s.observes x = true) ∧
    (∀ (s : Page) (ev : Event) (x : Element),
      s.hasClass x "visible" = true → (step d lite s ev).hasClass x "visible" = true) ∧
    (∀ (s : Page) (evs : List Event) (x : Element),
      s.hasClass x "visible" = true → (run d lite s evs).hasClass x "visible" = true) := by
  have unobs : ∀ (s : Page) (entries : List IntersectionObserverEntry) (x : Element),
      (∃ e ∈ entries, e.isIntersecting = true ∧ e.target = x) →
      (step d lite s (.intersection entries)).observes x = false := by
    intro s entries x hex
    rw [← Bool.not_eq_true]
    intro ho
    have hs := observes_step_le d lite s _ x ho
    unfold step at ho
    rcases hr : s.revealObserver with _ | ts
    · unfold Page.observes at hs
      rw [hr] at hs
      exact absurd hs Bool.false_ne_true
    · simp only [hr] at ho
      exact ((observes_revealCallback entries s x).1 ho).2 hex
  have keep : ∀ (s : Page) (ev : Event) (x : Element),
      s.hasClass x "visible" = true → (step d lite s ev).hasClass x "visible" = true := by
    intro s ev x hv
    rw [hasClass_iff] at hv ⊢
    exact (mem_visible_step d lite s ev x).2 (Or.inl hv)
  refine ⟨?_, ?_, observes_step_le d lite, keep, ?_⟩
  · intro s ev x hp hv
    rw [hasClass_eq_false_iff] at hp
    rw [hasClass_iff, mem_visible_step] at hv
    rcases hv with hv | ⟨_, entries, hev, hex⟩
    · exact absurd hv hp
    · subst hev
      exact ⟨⟨entries, rfl, hex⟩, unobs s entries x hex⟩
  · intro s entries e hobs he hi
    constructor
    · rw [hasClass_iff, mem_visible_step]
      exact Or.inr ⟨hobs, entries, rfl, e, he, hi, rfl⟩
    · exact unobs s entries e.target ⟨e, he, hi, rfl⟩
  · intro s evs x hv
    unfold run
    induction evs generalizing s with
    | nil => exact hv
    | cons ev rest ih =>
      rw [List.foldl_cons]
      exact ih _ (keep s ev x hv)

/-- Witness for C10: on the sample page with its observer set up, a
notification that element 7 intersects makes it visible and unobserved. -/
theorem reveal_one_shot_witness :
    (step demoDocument false (initReveal demoDocument false demoPage)
        (.intersection [⟨8, false⟩, ⟨7, true⟩])).hasClass 7 "visible" = true ∧
    (step demoDocument false (initReveal demoDocument false demoPage)
        (.intersection [⟨8, false⟩, ⟨7, true⟩])).observes 7 = false :=
  (reveal_one_shot demoDocument false).2.1 (initReveal demoDocument false demoPage)
    [⟨8, false⟩, ⟨7, true⟩] ⟨7, true⟩ (by decide) (by decide) rfl

/-! ### Smooth scrolling for anchor links -/

theorem querySelector_empty (d : Document) : querySelector d "" = .error .invalidSelector := rfl

theorem querySelector_hash (d : Document) : querySelector d "#" = .error .invalidSelector := rfl

/-- C4: for every document, page state and flag, and every href that
`querySelector` resolves to an element: the click handler returns normally,
calls `preventDefault`, and appends exactly one `scrollTo` request to the
requests issued so far, leaving the rest of the page as it was; the `top`
of the request is the `offsetTop` of the target minus the `offsetHeight` of
the header when there is a header and the `offsetTop` itself when there is
none; the behaviour is "auto" in lite mode and "smooth" otherwise; with
offset 500 and header height 80 the top is 420 in both modes. -/
theorem anchorClick_scroll_target (d : Document) (lite : Bool) (s : Page) (href : String)
    (targetEl : Element) (hres : querySelector d href = .ok (some targetEl)) :
    ∃ (r : ClickResult) (req : ScrollToOptions),
      anchorClick d lite (some href) s = .ok r ∧
      r.defaultPrevented = true ∧
      r.page = { s with scrollToCalls := s.scrollToCalls ++ [req] } ∧
      (∀ header, d.header = some header →
        req.top = s.offsetTop targetEl - s.offsetHeight header) ∧
      (d.header = none → req.top = s.offsetTop targetEl) ∧
      (lite = false → req.behavior = .smooth) ∧
      (lite = true → req.behavior = .auto) ∧
      (∀ header, d.header = some header → s.offsetTop targetEl = 500 →
        s.offsetHeight header = 80 → req.top = 420) := by
  have h1 : ¬ (href = "" ∨ href = "#") := by
    rintro (h | h) <;> subst h
    · rw [querySelector_empty] at hres
      exact absurd hres (by simp only [reduceCtorEq, not_false_eq_true])
    · rw [querySelector_hash] at hres
      exact absurd hres (by simp only [reduceCtorEq, not_false_eq_true])
  have e : anchorClick d lite (some href) s
      = .ok ⟨true, { s with scrollToCalls := s.scrollToCalls ++
          [{ top := s.offsetTop targetEl -
                (match d.header with
                 | some header => s.offsetHeight header
                 | none => 0),
             behavior := if lite then .auto else .smooth }] }⟩ := by
    unfold anchorClick
    dsimp only
    rw [if_neg h1, hres]
  refine ⟨_, _, e, rfl, rfl, ?_, ?_, ?_, ?_, ?_⟩
  · intro header hh
    simp only [hh]
  · intro hh
    simp only [hh, sub_zero]
  · intro hl
    simp only [hl, Bool.false_eq_true, if_false]
  · intro hl
    simp only [hl, if_true]
  · intro header hh ht hht
    simp only [hh, ht, hht]
    norm_num

/-- Witness for C4: "#section1" on the sample document, target at 500
and header 80 high, not in lite mode. -/
theorem anchorClick_scroll_target_witness :
    ∃ (r : ClickResult) (req : ScrollToOptions),
      anchorClick demoDocument false (some "#section1") demoPage = .ok r ∧
      r.defaultPrevented = true ∧
      r.page = { demoPage with scrollToCalls := demoPage.scrollToCalls ++ [req] } ∧
      req.top = 420 ∧ req.behavior = .smooth := by
  obtain ⟨r, req, h1, h2, h3, _, _, h6, _, h8⟩ :=
    anchorClick_scroll_target demoDocument false demoPage "#section1" 7 rfl
  exact ⟨r, req, h1, h2, h3, h8 0 rfl rfl rfl, h6 rfl⟩

/-- C7: for every document, page state and flag, when the href of the
activated link is missing, empty or exactly "#", or is a string that
`querySelector` resolves to no element, the click handler takes no action:
the page, hence the list of scroll requests, is exactly as before, and a
handler that returns has not called `preventDefault`; and in the first
three cases, and whenever `querySelector` answers that nothing matches, the
handler does return. -/
theorem anchorClick_no_action (d : Document) (lite : Bool) (s : Page) (href : Option String)
    (h : href = none ∨ href = some "" ∨ href = some "#" ∨
      ∃ t, href = some t ∧ ∀ el, querySelector d t ≠ .ok (some el)) :
    step d lite s (.anchorLinkClick href) = s ∧
    (∀ r, anchorClick d lite href s = .ok r → r.defaultPrevented = false ∧ r.page = s) ∧
    ((href = none ∨ href = some "" ∨ href = some "#" ∨
        ∃ t, href = some t ∧ querySelector d t = .ok none) →
      anchorClick d lite href s = .ok ⟨false, s⟩) := by
  have e : anchorClick d lite href s = .ok ⟨false, s⟩ ∨
      ∃ x, anchorClick d lite href s = .error x := by
    unfold anchorClick
    rcases h with h | h | h | ⟨t, h, hq⟩ <;> subst h
    · exact Or.inl rfl
    · exact Or.inl rfl
    · exact Or.inl rfl
    · dsimp only
      by_cases ht : t = "" ∨ t = "#"
      · rw [if_pos ht]
        exact Or.inl rfl
      · rw [if_neg ht]
        rcases hr : querySelector d t with x | (_ | el)
        · exact Or.inr ⟨x, rfl⟩
        · exact Or.inl rfl
        · exact absurd hr (hq el)
  have e2 : step d lite s (.anchorLinkClick href)
      = match anchorClick d lite href s with
        | .ok r => r.page
        | .error _ => s := rfl
  refine ⟨?_, ?_, ?_⟩
  · rw [e2]
    rcases e with e | ⟨x, e⟩ <;> rw [e]
  · intro r hr
    rcases e with e | ⟨x, e⟩
    · rw [e] at hr
      injection hr with hr
      subst hr
      exact ⟨rfl, rfl⟩
    · rw [e] at hr
      exact absurd hr (by simp only [reduceCtorEq, not_false_eq_true])
  · intro h2
    unfold anchorClick
    rcases h2 with h | h | h | ⟨t, h, hq⟩ <;> subst h
    · rfl
    · rfl
    · rfl
    · dsimp only
      by_cases ht : t = "" ∨ t = "#"
      · rw [if_pos ht]
      · rw [if_neg ht, hq]

/-- Witness for C7: "#missing" selects nothing in the sample document. -/
theorem anchorClick_no_action_witness :
    step demoDocument false demoPage (.anchorLinkClick (some "#missing")) = demoPage :=
  (anchorClick_no_action demoDocument false demoPage (some "#missing")
    (Or.inr (Or.inr (Or.inr ⟨"#missing", rfl, fun el h => by
      have h2 : querySelector demoDocument "#missing" = .ok none := rfl
      rw [h2] at h
      injection h with h
      exact absurd h (by simp only [reduceCtorEq, not_false_eq_true])⟩)))).1

/-- C8: on the href "#1section", which begins with "#" and is not a
valid selector, the click handler does not complete: in every document, in
both modes and from every page state `document.querySelector` raises and
the handler ends with that exception instead of returning. -/
theorem anchorClick_invalid_selector_raises (d : Document) (lite : Bool) (s : Page) :
    anchorClick d lite (some "#1section") s = .error .invalidSelector := rfl

end Barber
